import Mathlib

/-!
Verification of the service-listing application in `src/app.js`.

The file shallowly embeds the app's client-side logic:
* the JavaScript string trimming used on form inputs,
* the `onSnapshot` handler of `AngiCloneAppContent` (map documents to
  records, in-memory sort by timestamp, replace the published list),
* the mutation handlers `handleAddService` and `handleDeleteService`,
* the `FirebaseProvider` auth bootstrap, its `onAuthStateChanged`
  callback, `handleSignOut`, and its render branching,
* a model of the external document store (create with server-assigned
  id and timestamp, delete by id, full-snapshot delivery), taken from
  the backend capability contract the app relies on.

JavaScript semantics that matter here are modelled explicitly:
`String.prototype.trim`, truthiness of strings and nullable values,
the stability of `Array.prototype.sort` (ECMAScript requires a stable
sort, and a stable sort consistent with a total preorder comparator
has a unique result, so `List.insertionSort` computes it), and the
fact that a closure created by a mount-time effect captures the state
variables' first-render values.
-/

/-! ### JavaScript string primitives -/

/-- Whitespace in the sense of `String.prototype.trim`: ECMAScript
WhiteSpace (tab, VT, FF, space, NBSP, ZWNBSP and the Zs category) and
LineTerminator (LF, CR, LS, PS). -/
def isJsWhitespace (c : Char) : Bool :=
  c ∈ [' ', '\t', '\n', '\r',
       Char.ofNat 0x0b, Char.ofNat 0x0c, Char.ofNat 0xa0,
       Char.ofNat 0x1680,
       Char.ofNat 0x2000, Char.ofNat 0x2001, Char.ofNat 0x2002,
       Char.ofNat 0x2003, Char.ofNat 0x2004, Char.ofNat 0x2005,
       Char.ofNat 0x2006, Char.ofNat 0x2007, Char.ofNat 0x2008,
       Char.ofNat 0x2009, Char.ofNat 0x200a,
       Char.ofNat 0x2028, Char.ofNat 0x2029,
       Char.ofNat 0x202f, Char.ofNat 0x205f, Char.ofNat 0x3000,
       Char.ofNat 0xfeff]

/-- `s.trim()` in JavaScript: strip leading and trailing whitespace. -/
def jsTrim (s : String) : String :=
  ⟨((s.data.dropWhile isJsWhitespace).reverse.dropWhile isJsWhitespace).reverse⟩

/-- JavaScript truthiness test for a nullable string (`!x` is true for
`null`, `undefined` and the empty string). -/
def jsFalsyStr (x : Option String) : Bool :=
  match x with
  | none => true
  | some s => s = ""

/-! ### Data model

A stored document of the `services` collection, as written by
`handleAddService` (name, description, userId, timestamp) and as read
back by the snapshot handler.  `timestamp` is `none` while the
server-assigned value has not yet been resolved (`serverTimestamp()`
pending), otherwise the epoch milliseconds of `timestamp.toDate()`. -/
structure ServiceDoc where
  name : String
  description : String
  userId : String
  timestamp : Option Int
  deriving DecidableEq, Repr

/-- A view record produced by the snapshot handler:
`{ id: doc.id, ...doc.data() }`.  Document ids are opaque
backend-assigned identifiers, modelled as naturals. -/
structure ServiceRecord where
  id : Nat
  name : String
  description : String
  userId : String
  timestamp : Option Int
  deriving DecidableEq, Repr

/-- `snapshot.docs.map(doc => ({ id: doc.id, ...doc.data() }))` on one
document. -/
def toRecord (p : Nat × ServiceDoc) : ServiceRecord :=
  { id := p.1, name := p.2.name, description := p.2.description,
    userId := p.2.userId, timestamp := p.2.timestamp }

/-- The sort key of the comparator
`(b.timestamp?.toDate() || 0) - (a.timestamp?.toDate() || 0)`:
a `Date` object is always truthy, so a resolved timestamp contributes
its epoch milliseconds, and a missing one falls back to `0`. -/
def tsKey (r : ServiceRecord) : Int :=
  match r.timestamp with
  | some t => t
  | none => 0

/-- The order realised by the comparator: `a` is placed no later than
`b` exactly when `comparator(a,b) = tsKey b - tsKey a ≤ 0`. -/
def serviceOrder (a b : ServiceRecord) : Prop :=
  tsKey b ≤ tsKey a

instance : DecidableRel serviceOrder := fun a b =>
  inferInstanceAs (Decidable (tsKey b ≤ tsKey a))

/-- The snapshot handler of `AngiCloneAppContent`: map the snapshot's
documents to records and sort them in memory with
`servicesData.sort((a, b) => (b.timestamp?.toDate() || 0) - (a.timestamp?.toDate() || 0))`.
`Array.prototype.sort` is stable (ECMAScript 2019+), and a stable sort
for a total preorder comparator is unique, so stable insertion sort
computes it. -/
def processSnapshot (docs : List (Nat × ServiceDoc)) : List ServiceRecord :=
  List.insertionSort serviceOrder (docs.map toRecord)

/-! ### Local state of `AngiCloneAppContent` -/

/-- The component state: the published `services` list, the two form
inputs, and the submit loading/error flags. -/
structure ContentState where
  services : List ServiceRecord
  newService : String
  newDescription : String
  submitLoading : Bool
  submitError : Option String
  deriving DecidableEq, Repr

/-- The error callback of the `onSnapshot` subscription:
`setSubmitError("Failed to load services.")` and nothing else. -/
def onSnapshotError (s : ContentState) : ContentState :=
  { s with submitError := some "Failed to load services." }

/-- The success callback of the `onSnapshot` subscription: replace the
whole published list with the sorted snapshot (`setServices`). -/
def onSnapshotNext (docs : List (Nat × ServiceDoc)) (s : ContentState) : ContentState :=
  { s with services := processSnapshot docs }

/-! ### Mutation gateway -/

/-- The value stored under `timestamp` in the `addDoc` payload: the
`serverTimestamp()` sentinel, resolved to a concrete time by the
backend at commit. -/
inductive TsField where
  | serverTimestamp
  deriving DecidableEq, Repr

/-- The document payload passed to `addDoc` by `handleAddService`:
`{ name: newService.trim(), description: newDescription.trim(),
userId: userId, timestamp: serverTimestamp() }`. -/
structure AddRequest where
  name : String
  description : String
  userId : String
  timestamp : TsField
  deriving DecidableEq, Repr

/-- Outcome of one invocation of `handleAddService`: the component
state after the handler returns, and the write request issued to the
backend, if any (`none` when the guard fired and `addDoc` was never
called). -/
structure AddOutcome where
  state : ContentState
  write : Option AddRequest
  deriving DecidableEq, Repr

/-- `handleAddService`.  `db` is the Firestore handle (opaque, nullable),
`userId` the current identity, `addDocSucceeds` tells whether the
awaited `addDoc` resolves or rejects.  Control flow as in the source:
the guard `!db || !userId || !newService.trim()` sets the validation
error and returns before any write; otherwise `submitLoading` is set,
`submitError` cleared, `addDoc` is awaited, the inputs are cleared only
on success, the catch sets the write error, and the finally clears
`submitLoading`. -/
def handleAddService (db : Option Unit) (userId : Option String)
    (addDocSucceeds : Bool) (s : ContentState) : AddOutcome :=
  if db.isNone || jsFalsyStr userId || jsTrim s.newService = "" then
    { state := { s with submitError := some "Service name cannot be empty." },
      write := none }
  else
    let s1 := { s with submitLoading := true, submitError := none }
    let req : AddRequest :=
      { name := jsTrim s.newService, description := jsTrim s.newDescription,
        userId := userId.getD "", timestamp := .serverTimestamp }
    if addDocSucceeds then
      { state := { s1 with
          newService := "",
          newDescription := "",
          submitLoading := false },
        write := some req }
    else
      { state := { s1 with
          submitError := some "Failed to add service. Please try again.",
          submitLoading := false },
        write := some req }

/-- Outcome of one invocation of `handleDeleteService`: the component
state afterwards and the id whose `deleteDoc` was issued, if any. -/
structure DeleteOutcome where
  state : ContentState
  delete : Option Nat
  deriving DecidableEq, Repr

/-- `handleDeleteService(serviceId)`: silently return when `db` or
`userId` is falsy, otherwise issue `deleteDoc` and on rejection set
the write error. -/
def handleDeleteService (db : Option Unit) (userId : Option String)
    (deleteDocSucceeds : Bool) (serviceId : Nat) (s : ContentState) : DeleteOutcome :=
  if db.isNone || jsFalsyStr userId then
    { state := s, delete := none }
  else if deleteDocSucceeds then
    { state := s, delete := some serviceId }
  else
    { state := { s with
                 submitError := some "Failed to delete service. Please try again." },
      delete := some serviceId }

/-! ### Backend document store

The external collection the app reads and writes
(`artifacts/{appId}/public/data/services`).  The backend assigns each
created document a fresh opaque id and resolves the `serverTimestamp()`
sentinel to a concrete creation time; a snapshot delivers the current
documents.  Modelled from the backend capability contract the app
depends on (document create/delete, server-assigned timestamps,
full-snapshot live queries). -/
structure Collection where
  docs : List (Nat × ServiceDoc)
  nextId : Nat
  deriving DecidableEq, Repr

def Collection.empty : Collection := { docs := [], nextId := 0 }

/-- One gateway operation as the backend commits it: a create carries
the `addDoc` payload plus the timestamp the backend resolved
`serverTimestamp()` to; a delete carries the target document id. -/
inductive Op where
  | create (req : AddRequest) (ts : Int)
  | delete (id : Nat)
  deriving DecidableEq, Repr

/-- Committing one operation: `addDoc` appends a document under a fresh
id with the resolved timestamp; `deleteDoc` removes the document with
the given id (a no-op when absent). -/
def applyOp (c : Collection) : Op → Collection
  | .create req ts =>
      { docs := c.docs ++ [(c.nextId,
          { name := req.name, description := req.description,
            userId := req.userId, timestamp := some ts })],
        nextId := c.nextId + 1 }
  | .delete i => { c with docs := c.docs.filter (fun p => p.1 ≠ i) }

def applyOps (ops : List Op) (c : Collection) : Collection :=
  ops.foldl applyOp c

/-- Whether the operation sequence contains a delete of id `i`. -/
def deletesId (ops : List Op) (i : Nat) : Bool :=
  ops.any (fun op => op = .delete i)

/-- The created-and-not-deleted records of an operation sequence,
stated independently of `applyOp`: the `k`-th create (ids are handed
out sequentially starting at `n`) survives exactly when no later
operation deletes its id. -/
def survivors (n : Nat) : List Op → List (Nat × ServiceDoc)
  | [] => []
  | .create req ts :: rest =>
      (if deletesId rest n then []
       else [(n, { name := req.name, description := req.description,
                   userId := req.userId, timestamp := some ts })])
      ++ survivors (n + 1) rest
  | .delete _ :: rest => survivors n rest

/-! ### Session bootstrapper (`FirebaseProvider`) -/

/-- The provider state: the identity, the loading flag of the auth
bootstrap, and the provider-level error message. -/
structure ProviderState where
  userId : Option String
  loading : Bool
  error : Option String
  deriving DecidableEq, Repr

/-- What `FirebaseProvider` renders, per its three render branches:
the loading spinner, the blocking error notice, or the app body
(the children under the context provider). -/
inductive ProviderView where
  | loadingSpinner
  | errorNotice (msg : String)
  | appBody
  deriving DecidableEq, Repr

/-- The provider's render: `if (loading)` the spinner, else
`if (error)` the blocking `Alert`, else the children. -/
def providerRender (s : ProviderState) : ProviderView :=
  if s.loading then .loadingSpinner
  else
    match s.error with
    | some m => .errorNotice m
    | none => .appBody

/-- The state change of a failed `signInUser()` (anonymous or
custom-token sign-in rejects): the catch sets the auth error and the
finally clears `loading`. -/
def signInUserFail (s : ProviderState) : ProviderState :=
  { s with error := some "Failed to authenticate with Firebase.",
           loading := false }

/-- The value of the `loading` state variable captured by the mount
effect's closure.  The effect has an empty dependency array, so it runs
exactly once, on the first render, when `loading` still holds its
initial value `true`; the `onAuthStateChanged` callback it registers
reads this captured binding for the rest of the application's life,
never the current state. -/
def loadingCapturedAtMount : Bool := true

/-- The `onAuthStateChanged` callback: with a user, store its uid; with
no user, clear the uid and call `signInUser()` only when the captured
`loading` binding is false (`if (!loading) signInUser()`); in both
branches finish with `setLoading(false)`.  Returns the new state and
whether a sign-in attempt was started. -/
def onAuthStateChangedCallback (capturedLoading : Bool) (user : Option String)
    (s : ProviderState) : ProviderState × Bool :=
  match user with
  | some uid => ({ s with userId := some uid, loading := false }, false)
  | none => ({ s with userId := none, loading := false }, !capturedLoading)

/-- `handleSignOut`: when `auth` is available, await `signOut` (its
success makes the backend fire the auth listener with no user), clear
`userId`, then await `signInAnonymously` (its success fires the auth
listener with the fresh anonymous uid); any rejection is caught and
sets the sign-out error. -/
def handleSignOut (authPresent : Bool) (signOutSucceeds : Bool)
    (signInAnonSucceeds : Bool) (anonUid : String) (s : ProviderState) : ProviderState :=
  if authPresent then
    if signOutSucceeds then
      let s1 := (onAuthStateChangedCallback loadingCapturedAtMount none s).1
      let s2 := { s1 with userId := none }
      if signInAnonSucceeds then
        (onAuthStateChangedCallback loadingCapturedAtMount (some anonUid) s2).1
      else
        { s2 with error := some "Failed to sign out." }
    else
      { s with error := some "Failed to sign out." }
  else s

/-! ### Helper lemmas -/

theorem jsTrim_eq_empty_of_whitespace (s : String)
    (h : ∀ c ∈ s.data, isJsWhitespace c) : jsTrim s = "" := by
  unfold jsTrim
  have h1 : s.data.dropWhile isJsWhitespace = [] :=
    List.dropWhile_eq_nil_iff.mpr h
  rw [h1]
  rfl

instance : IsTotal ServiceRecord serviceOrder :=
  ⟨fun a b => le_total (tsKey b) (tsKey a)⟩

instance : IsTrans ServiceRecord serviceOrder :=
  ⟨fun _ _ _ hab hbc => le_trans hbc hab⟩

theorem deletesId_cons_create (req : AddRequest) (ts : Int) (rest : List Op) (i : Nat) :
    deletesId (.create req ts :: rest) i = deletesId rest i := by
  simp [deletesId]

theorem deletesId_cons_delete (j : Nat) (rest : List Op) (i : Nat) :
    deletesId (.delete j :: rest) i = (decide (j = i) || deletesId rest i) := by
  simp [deletesId]

/-- The committed collection after a sequence of operations holds, in
creation order, the initial documents that no operation deletes,
followed by the surviving created documents. -/
theorem applyOps_docs (ops : List Op) (c : Collection)
    (hid : ∀ p ∈ c.docs, p.1 < c.nextId) :
    (applyOps ops c).docs
      = c.docs.filter (fun p => !deletesId ops p.1) ++ survivors c.nextId ops := by
  induction ops generalizing c with
  | nil =>
    simp [applyOps, survivors, deletesId]
  | cons op rest ih =>
    cases op with
    | create req ts =>
      have hid2 : ∀ p ∈ (applyOp c (.create req ts)).docs,
          p.1 < (applyOp c (.create req ts)).nextId := by
        intro p hp
        simp [applyOp] at hp
        rcases hp with hp | hp
        · exact Nat.lt_succ_of_lt (hid p hp)
        · simp [applyOp, hp]
      rw [show applyOps (.create req ts :: rest) c
          = applyOps rest (applyOp c (.create req ts)) from rfl,
        ih (applyOp c (.create req ts)) hid2]
      simp only [applyOp, List.filter_append, List.append_assoc, deletesId_cons_create]
      rw [show survivors c.nextId (.create req ts :: rest)
          = (if deletesId rest c.nextId then []
             else [(c.nextId,
               { name := req.name, description := req.description,
                 userId := req.userId, timestamp := some ts })])
            ++ survivors (c.nextId + 1) rest from rfl]
      have hone : List.filter (fun p => !deletesId rest p.1)
          [(c.nextId,
            ({ name := req.name, description := req.description,
               userId := req.userId, timestamp := some ts } : ServiceDoc))]
          = (if deletesId rest c.nextId then []
             else [(c.nextId,
               { name := req.name, description := req.description,
                 userId := req.userId, timestamp := some ts })]) := by
        cases h : deletesId rest c.nextId <;> simp [h]
      rw [hone]
    | delete j =>
      have hid2 : ∀ p ∈ (applyOp c (.delete j)).docs,
          p.1 < (applyOp c (.delete j)).nextId := by
        intro p hp
        simp [applyOp] at hp ⊢
        exact hid p hp.1
      rw [show applyOps (.delete j :: rest) c
          = applyOps rest (applyOp c (.delete j)) from rfl,
        ih (applyOp c (.delete j)) hid2]
      rw [show survivors c.nextId (.delete j :: rest) = survivors c.nextId rest from rfl]
      have hnext : (applyOp c (.delete j)).nextId = c.nextId := rfl
      rw [hnext]
      have hdocs2 : (applyOp c (.delete j)).docs
          = c.docs.filter (fun p => p.1 ≠ j) := rfl
      rw [hdocs2, List.filter_filter]
      have hfun : ∀ p ∈ c.docs,
          (!deletesId rest p.1 && decide (p.1 ≠ j))
            = !deletesId (.delete j :: rest) p.1 := by
        intro p _
        rw [deletesId_cons_delete]
        by_cases h2 : p.1 = j
        · rw [h2]
          simp
        · have e1 : decide (p.1 ≠ j) = true := decide_eq_true h2
          have e2 : decide (j = p.1) = false :=
            decide_eq_false (fun hh => h2 hh.symm)
          rw [e1, e2]
          simp
      rw [List.filter_congr hfun]

/-- Every surviving created record carries a resolved (backend
assigned) timestamp. -/
theorem survivors_timestamp_isSome (ops : List Op) (n : Nat) :
    ∀ p ∈ survivors n ops, p.2.timestamp.isSome := by
  induction ops generalizing n with
  | nil => simp [survivors]
  | cons op rest ih =>
    cases op with
    | create req ts =>
      intro p hp
      rw [show survivors n (.create req ts :: rest)
          = (if deletesId rest n then []
             else [(n, { name := req.name, description := req.description,
                         userId := req.userId, timestamp := some ts })])
            ++ survivors (n + 1) rest from rfl] at hp
      rcases List.mem_append.mp hp with h | h
      · cases hdel : deletesId rest n
        · rw [hdel] at h
          simp at h
          simp [h]
        · rw [hdel] at h
          simp at h
      · exact ih (n + 1) p h
    | delete j =>
      intro p hp
      exact ih n p (by simpa [survivors] using hp)

/-! ### Claims -/

/-- C3: for every input whose name consists only of whitespace (in
particular the empty name), `handleAddService` issues no write and
surfaces the validation error. -/
theorem add_whitespace_name_rejected (db : Option Unit) (userId : Option String)
    (addDocSucceeds : Bool) (s : ContentState)
    (h : ∀ c ∈ s.newService.data, isJsWhitespace c) :
    (handleAddService db userId addDocSucceeds s).write = none ∧
    (handleAddService db userId addDocSucceeds s).state.submitError
      = some "Service name cannot be empty." := by
  have ht : jsTrim s.newService = "" := jsTrim_eq_empty_of_whitespace s.newService h
  unfold handleAddService
  simp [ht]

theorem add_whitespace_name_rejected_witness :
    (handleAddService (some ()) (some "user-1") true
        { services := [], newService := " \t ", newDescription := "d",
          submitLoading := false, submitError := none }).write = none ∧
    (handleAddService (some ()) (some "user-1") true
        { services := [], newService := " \t ", newDescription := "d",
          submitLoading := false, submitError := none }).state.submitError
      = some "Service name cannot be empty." :=
  add_whitespace_name_rejected (some ()) (some "user-1") true
    { services := [], newService := " \t ", newDescription := "d",
      submitLoading := false, submitError := none } (by decide)

/-- C10: when `db` or `userId` is unresolved (falsy), `handleAddService`
issues no write and surfaces the very same validation message used for
an empty name, even when the supplied name is non-empty — the two
precondition violations are indistinguishable to the caller. -/
theorem add_unresolved_context_same_error (db : Option Unit) (userId : Option String)
    (addDocSucceeds : Bool) (s : ContentState)
    (h : (db.isNone || jsFalsyStr userId) = true) :
    (handleAddService db userId addDocSucceeds s).write = none ∧
    (handleAddService db userId addDocSucceeds s).state.submitError
      = some "Service name cannot be empty." := by
  unfold handleAddService
  rcases Bool.or_eq_true_iff.mp h with h1 | h1 <;> simp [h1]

theorem add_unresolved_context_same_error_witness :
    (handleAddService none (some "user-1") true
        { services := [], newService := "Plumbing", newDescription := "d",
          submitLoading := false, submitError := none }).write = none ∧
    (handleAddService none (some "user-1") true
        { services := [], newService := "Plumbing", newDescription := "d",
          submitLoading := false, submitError := none }).state.submitError
      = some "Service name cannot be empty." :=
  add_unresolved_context_same_error none (some "user-1") true
    { services := [], newService := "Plumbing", newDescription := "d",
      submitLoading := false, submitError := none } (by decide)

/-- C4: under the precondition (resolved `db` and `userId`, name
non-empty after trimming) a successful create issues exactly one write,
carrying the trimmed name, the trimmed description, the current
identity, and the `serverTimestamp()` sentinel; the published list is
untouched, the inputs are cleared, and no error is surfaced. -/
theorem add_success_writes_once (u : String) (s : ContentState)
    (hu : u ≠ "") (hn : jsTrim s.newService ≠ "") :
    handleAddService (some ()) (some u) true s =
      { state := { s with newService := "", newDescription := "",
                          submitLoading := false, submitError := none },
        write := some { name := jsTrim s.newService,
                        description := jsTrim s.newDescription,
                        userId := u, timestamp := .serverTimestamp } } := by
  unfold handleAddService
  simp [jsFalsyStr, hu, hn]

theorem add_success_writes_once_witness :
    handleAddService (some ()) (some "user-1") true
        { services := [], newService := " Plumbing ", newDescription := " Fix leaks ",
          submitLoading := false, submitError := none } =
      { state := { services := [], newService := "", newDescription := "",
                   submitLoading := false, submitError := none },
        write := some { name := "Plumbing", description := "Fix leaks",
                        userId := "user-1", timestamp := .serverTimestamp } } :=
  add_success_writes_once "user-1"
    { services := [], newService := " Plumbing ", newDescription := " Fix leaks ",
      submitLoading := false, submitError := none }
    (by decide) (by decide)

/-- C7: when the `addDoc` write rejects, `handleAddService` surfaces
the recoverable write error and leaves both input fields exactly as
they were before the attempt. -/
theorem add_failure_keeps_inputs (u : String) (s : ContentState)
    (hu : u ≠ "") (hn : jsTrim s.newService ≠ "") :
    (handleAddService (some ()) (some u) false s).state.submitError
      = some "Failed to add service. Please try again." ∧
    (handleAddService (some ()) (some u) false s).state.newService = s.newService ∧
    (handleAddService (some ()) (some u) false s).state.newDescription
      = s.newDescription := by
  unfold handleAddService
  simp [jsFalsyStr, hu, hn]

theorem add_failure_keeps_inputs_witness :
    (handleAddService (some ()) (some "user-1") false
        { services := [], newService := "Plumbing", newDescription := "Fix leaks",
          submitLoading := false, submitError := none }).state.submitError
      = some "Failed to add service. Please try again." ∧
    (handleAddService (some ()) (some "user-1") false
        { services := [], newService := "Plumbing", newDescription := "Fix leaks",
          submitLoading := false, submitError := none }).state.newService
      = "Plumbing" ∧
    (handleAddService (some ()) (some "user-1") false
        { services := [], newService := "Plumbing", newDescription := "Fix leaks",
          submitLoading := false, submitError := none }).state.newDescription
      = "Fix leaks" :=
  add_failure_keeps_inputs "user-1"
    { services := [], newService := "Plumbing", newDescription := "Fix leaks",
      submitLoading := false, submitError := none }
    (by decide) (by decide)

/-- C6: the subscription's error callback sets the error message and
leaves the previously published list untouched, whatever it held. -/
theorem subscription_error_keeps_list (s : ContentState) :
    (onSnapshotError s).services = s.services ∧
    (onSnapshotError s).submitError = some "Failed to load services." :=
  ⟨rfl, rfl⟩

/-- C5, counterexample: starting from the clean bootstrap state, a
failed `signInUser()` leaves the provider rendering the blocking error
notice — not the app body.  Authentication failure goes through the
same `error` state as connection-setup failure, and the render's
`if (error)` branch replaces the children with the `Alert`. -/
theorem auth_failure_blocks_body_cex :
    providerRender (signInUserFail { userId := none, loading := true, error := none })
      = .errorNotice "Failed to authenticate with Firebase." ∧
    providerRender (signInUserFail { userId := none, loading := true, error := none })
      ≠ .appBody := by
  constructor
  · rfl
  · decide

/-- C5, amended: when authentication fails, the error message is
surfaced, and the provider renders the blocking error notice in place
of the application body — authentication failure blocks rendering
exactly like a connection-setup failure, from every prior provider
state. -/
theorem auth_failure_shows_error_notice (s : ProviderState) :
    (signInUserFail s).error = some "Failed to authenticate with Firebase." ∧
    providerRender (signInUserFail s)
      = .errorNotice "Failed to authenticate with Firebase." :=
  ⟨rfl, rfl⟩

/-- C8: a fully successful `handleSignOut` (auth handle available,
`signOut` and the follow-up `signInAnonymously` both resolve) ends
with the identity holding the fresh anonymous uid delivered by the
auth listener — the identity is non-null again after sign-out. -/
theorem sign_out_restores_identity (anonUid : String) (s : ProviderState) :
    (handleSignOut true true true anonUid s).userId = some anonUid ∧
    (handleSignOut true true true anonUid s).userId ≠ none := by
  refine ⟨rfl, ?_⟩
  intro h
  exact Option.noConfusion (show some anonUid = (none : Option String) from h)

/-- C9, at the failing input: the `onAuthStateChanged` callback never
starts a sign-in attempt when notified of a missing user, whatever the
current provider state — in particular even after bootstrap has
finished (`loading` state false).  The guard `if (!loading)` reads the
closure-captured `loading` binding, frozen at its mount value `true`
by the empty-dependency effect, so `signInUser()` is unreachable from
the callback, contrary to the comment on the guard. -/
theorem null_user_never_triggers_sign_in (s : ProviderState) :
    (onAuthStateChangedCallback loadingCapturedAtMount none s).2 = false ∧
    (onAuthStateChangedCallback loadingCapturedAtMount none s).1.userId = none :=
  ⟨rfl, rfl⟩

/-- C2, counterexample: a snapshot holding a document with no resolved
timestamp followed by one whose timestamp resolved to the epoch
(0 ms).  The comparator maps both to the key 0, the stable sort keeps
the snapshot order, and the published list places the unresolved
record above the resolved one — refuting "every record whose creation
timestamp is not yet resolved appears after every record that has a
resolved timestamp, regardless of the order of documents in the
snapshot". -/
theorem unresolved_above_resolved_cex :
    processSnapshot [(1, ⟨"A", "", "u", none⟩), (2, ⟨"B", "", "u", some 0⟩)]
      = [⟨1, "A", "", "u", none⟩, ⟨2, "B", "", "u", some 0⟩] ∧
    (⟨1, "A", "", "u", none⟩ : ServiceRecord).timestamp = none ∧
    (⟨2, "B", "", "u", some 0⟩ : ServiceRecord).timestamp = some 0 := by
  refine ⟨?_, rfl, rfl⟩
  decide

/-- C2, amended: every snapshot is published as a permutation of its
mapped documents, sorted descending by the comparator key (resolved
timestamp in epoch milliseconds, 0 when unresolved); and provided all
resolved timestamps in the snapshot are strictly positive (later than
the epoch), every unresolved record appears below every resolved one,
regardless of snapshot order.  (A timestamp resolving to the epoch or
earlier can tie with, or sort above, unresolved records.) -/
theorem snapshot_publish_sorted (docs : List (Nat × ServiceDoc)) (s : ContentState) :
    ((onSnapshotNext docs s).services).Perm (docs.map toRecord) ∧
    ((onSnapshotNext docs s).services).Pairwise serviceOrder ∧
    ((∀ p ∈ docs, ∀ t : Int, p.2.timestamp = some t → 0 < t) →
      ((onSnapshotNext docs s).services).Pairwise
        (fun a b => a.timestamp = none → b.timestamp = none)) := by
  have hperm : (processSnapshot docs).Perm (docs.map toRecord) :=
    List.perm_insertionSort serviceOrder (docs.map toRecord)
  have hsorted : (processSnapshot docs).Pairwise serviceOrder :=
    List.sorted_insertionSort serviceOrder (docs.map toRecord)
  refine ⟨hperm, hsorted, ?_⟩
  intro hpos
  refine hsorted.imp_of_mem ?_
  intro a b ha hb hab hanone
  cases hbt : b.timestamp with
  | none => rfl
  | some t =>
    exfalso
    have hbmem : b ∈ docs.map toRecord := (hperm.mem_iff).mp hb
    obtain ⟨p, hp, hpb⟩ := List.mem_map.mp hbmem
    have hpt : p.2.timestamp = some t := by
      have : (toRecord p).timestamp = some t := hpb ▸ hbt
      simpa [toRecord] using this
    have ht : 0 < t := hpos p hp t hpt
    have hka : tsKey a = 0 := by simp [tsKey, hanone]
    have hkb : tsKey b = t := by simp [tsKey, hbt]
    have : tsKey b ≤ tsKey a := hab
    rw [hka, hkb] at this
    exact absurd (lt_of_lt_of_le ht this) (lt_irrefl 0)

/-- C1: after any sequence of create and delete operations has been
committed, the snapshot handler publishes exactly the
created-and-not-deleted records (`survivors`, stated independently of
the commit function): the published list is a permutation of them,
every published record carries a backend-assigned creation time, and
the list is ordered descending by those creation times. -/
theorem published_after_ops_eq_survivors (ops : List Op) (s : ContentState) :
    ((onSnapshotNext (applyOps ops Collection.empty).docs s).services).Perm
      ((survivors 0 ops).map toRecord) ∧
    (∀ r ∈ (onSnapshotNext (applyOps ops Collection.empty).docs s).services,
      r.timestamp.isSome) ∧
    ((onSnapshotNext (applyOps ops Collection.empty).docs s).services).Pairwise
      (fun a b => ∀ ta tb : Int,
        a.timestamp = some ta → b.timestamp = some tb → tb ≤ ta) := by
  have hdocs : (applyOps ops Collection.empty).docs = survivors 0 ops := by
    have h := applyOps_docs ops Collection.empty
      (by intro p hp; simp [Collection.empty] at hp)
    simpa [Collection.empty] using h
  have hserv : (onSnapshotNext (applyOps ops Collection.empty).docs s).services
      = processSnapshot (survivors 0 ops) := by rw [← hdocs]; rfl
  have hperm : (processSnapshot (survivors 0 ops)).Perm
      ((survivors 0 ops).map toRecord) :=
    List.perm_insertionSort serviceOrder _
  have hsorted : (processSnapshot (survivors 0 ops)).Pairwise serviceOrder :=
    List.sorted_insertionSort serviceOrder _
  refine ⟨?_, ?_, ?_⟩
  · rw [hserv]
    exact hperm
  · intro r hr
    rw [hserv] at hr
    have hr2 : r ∈ (survivors 0 ops).map toRecord := hperm.mem_iff.mp hr
    obtain ⟨p, hp, hpr⟩ := List.mem_map.mp hr2
    have hts : p.2.timestamp.isSome := survivors_timestamp_isSome ops 0 p hp
    rw [← hpr]
    simpa [toRecord] using hts
  · rw [hserv]
    refine hsorted.imp ?_
    intro a b hab ta tb hta htb
    have h : tsKey b ≤ tsKey a := hab
    have hka : tsKey a = ta := by simp [tsKey, hta]
    have hkb : tsKey b = tb := by simp [tsKey, htb]
    rw [hka, hkb] at h
    exact h

theorem snapshot_publish_sorted_witness :
    ((onSnapshotNext
        [(1, ⟨"A", "", "u", some 5⟩), (2, ⟨"B", "", "u", none⟩),
         (3, ⟨"C", "", "u", some 9⟩)]
        { services := [], newService := "", newDescription := "",
          submitLoading := false, submitError := none }).services).Pairwise
      (fun a b => a.timestamp = none → b.timestamp = none) :=
  (snapshot_publish_sorted
      [(1, ⟨"A", "", "u", some 5⟩), (2, ⟨"B", "", "u", none⟩),
       (3, ⟨"C", "", "u", some 9⟩)]
      { services := [], newService := "", newDescription := "",
        submitLoading := false, submitError := none }).2.2 (by decide)

/-! ### Concrete scenario checks (spec §8) -/

example : jsTrim "  a b  " = "a b" := rfl

example : jsTrim "\t \n" = "" := rfl

example : processSnapshot
    [(1, ⟨"A", "", "u", some 5⟩), (2, ⟨"B", "", "u", none⟩), (3, ⟨"C", "", "u", some 9⟩)]
  = [⟨3, "C", "", "u", some 9⟩, ⟨1, "A", "", "u", some 5⟩, ⟨2, "B", "", "u", none⟩] := by
  decide

example : processSnapshot (applyOps
      [.create ⟨"Plumbing", "Fix leaks", "u", .serverTimestamp⟩ 1,
       .create ⟨"Electrical", "Wire install", "u", .serverTimestamp⟩ 2]
      Collection.empty).docs
    = [⟨1, "Electrical", "Wire install", "u", some 2⟩,
       ⟨0, "Plumbing", "Fix leaks", "u", some 1⟩] := by
  decide

example : (applyOps
      [.create ⟨"Painting", "", "u", .serverTimestamp⟩ 1, .delete 0]
      Collection.empty).docs = [] := by
  decide
